import Mathlib

/-!
Shallow embedding of src/resolve-by-mlabns.py, a pdns pipe backend.

The program reads tab-separated query lines from stdin and answers with
LOG / DATA / END lines on stdout.  External effects are made explicit:

* stdout writes, flushes and outbound naming-service calls become an
  event trace (`Ev`);
* the naming-service lookup result is an oracle value (`NsOutcome`):
  transport error, unparseable body, or a parsed JSON object with an
  optional ip list;
* the /etc/donar.txt read is an oracle value (`Except Unit (List String)`);
* Python exceptions that escape a function are modelled with
  `Except PyErr` results (the source has two escape paths: the bare
  except handler of mlabns_a_record evaluates the unbound names ip and e,
  raising NameError, and json.load sits outside the try, so a body that
  is not JSON raises ValueError uncaught).

String primitives of Python (split, strip, replace, substring test) are
re-implemented over character lists so that every definition evaluates
inside the kernel.
-/

namespace Mlabns

/-- RECORD_TTL constant of the source. -/
def RECORD_TTL : Nat := 300

/-- DOMAIN constant of the source. -/
def DOMAIN : String := "donar.measurement-lab.org"

/-- NDT_HOSTLIST constant of the source: the two accepted query names. -/
def NDT_HOSTLIST : List String := ["ndt.iupui." ++ DOMAIN, DOMAIN]

/-- Helper for `splitTab`: accumulates the current field (reversed). -/
def splitTabAux : List Char → List Char → List String
  | [], acc => [String.mk acc.reverse]
  | c :: cs, acc =>
      if c == '\t' then String.mk acc.reverse :: splitTabAux cs []
      else splitTabAux cs (c :: acc)

/-- Python str.split with the single-character separator tab, as used by
query_to_dict. -/
def splitTab (s : String) : List String :=
  splitTabAux s.toList []

/-- Python str.replace of tab by space, as done by log_msg on every
logged message. -/
def replTabSpace (s : String) : String :=
  String.mk (s.toList.map (fun c => if c == '\t' then ' ' else c))

/-- Python whitespace characters recognised by str.strip. -/
def isPySpace (c : Char) : Bool :=
  c == ' ' || c == '\t' || c == '\n' || c == '\x0d' || c == '\x0b' || c == '\x0c'

/-- Python str.strip: drop surrounding whitespace. -/
def stripChars (s : String) : String :=
  String.mk (((s.toList.dropWhile isPySpace).reverse.dropWhile isPySpace).reverse)

/-- Does pat start the list s, character by character. -/
def leadsWith : List Char → List Char → Bool
  | _, [] => true
  | [], _ :: _ => false
  | c :: cs, p :: ps => c == p && leadsWith cs ps

/-- Does pat occur contiguously inside s: the Python in operator on
strings. -/
def occursIn (pat : List Char) : List Char → Bool
  | [] => pat.isEmpty
  | c :: cs => leadsWith (c :: cs) pat || occursIn pat cs

/-- Python substring containment, on String. -/
def strOccursIn (pat s : String) : Bool :=
  occursIn pat.toList s.toList

/-- One observable effect of the backend process.  logLine s stands for
stdout.write of the bytes LOG tab s, dataLine s for DATA tab s, rawOut
for a verbatim write, flush for stdout.flush, and resolverCall marks one
outbound HTTP request to mlab-ns. -/
inductive Ev where
  | logLine (s : String)
  | dataLine (s : String)
  | rawOut (s : String)
  | flush
  | resolverCall
deriving DecidableEq

/-- Bytes actually written to stdout for an event. -/
def Ev.bytes : Ev → String
  | Ev.logLine s => "LOG\t" ++ s
  | Ev.dataLine s => "DATA\t" ++ s
  | Ev.rawOut s => s
  | Ev.flush => ""
  | Ev.resolverCall => ""

/-- log_msg of the source: skip None, replace tabs by spaces, write with
the LOG tag. -/
def log_msg : Option String → List Ev
  | none => []
  | some msg => [Ev.logLine (replTabSpace msg)]

/-- data_msg of the source: skip None, log a REPLY copy, write with the
DATA tag. -/
def data_msg : Option String → List Ev
  | none => []
  | some msg => log_msg (some ("REPLY: " ++ msg)) ++ [Ev.dataLine msg]

/-- The query dictionary built by query_to_dict.  kind and id are always
set; the other four fields are None for a 2-field control line. -/
structure Query where
  kind : String
  name : Option String
  qclass : Option String
  qtype : Option String
  id : String
  remote_ip : Option String
  ttl : Nat
deriving DecidableEq

/-- Python %s conversion of a field that may be None. -/
def pyStr : Option String → String
  | none => "None"
  | some s => s

/-- query_to_dict of the source.  It returns its log events (the FAILED
message is written by this function itself) together with the optional
query. -/
def query_to_dict (query_str : String) : List Ev × Option Query :=
  match splitTab query_str with
  | [kind, qname, qclass, qtype, id, ip] =>
      ([], some ⟨kind, some qname, some qclass, some qtype, id, some ip, RECORD_TTL⟩)
  | [kind, id] =>
      ([], some ⟨kind, none, none, none, id, none, RECORD_TTL⟩)
  | _ =>
      (log_msg (some ("FAILED to parse query: " ++ query_str ++ "\n")), none)

/-- soa_record of the source. -/
def soa_record (query : Query) : String :=
  DOMAIN ++ ".\t" ++ pyStr query.qclass ++ "\t" ++ "SOA\t" ++ toString query.ttl ++ "\t" ++
    "-1\t" ++ "localhost. " ++ "support.measurementlab.net. " ++
    "2013092700 1800 3600 604800 3600\n"

/-- a_record of the source. -/
def a_record (query : Query) (ipaddr : String) : String :=
  pyStr query.name ++ "\t" ++ pyStr query.qclass ++ "\t" ++ "A\t" ++ toString query.ttl ++ "\t" ++
    query.id ++ "\t" ++ ipaddr ++ "\n"

/-- ns_record of the source: note the zone is emitted without a trailing
dot, unlike soa_record. -/
def ns_record (query : Query) (host : String) : String :=
  DOMAIN ++ "\t" ++ pyStr query.qclass ++ "\t" ++ "NS\t" ++ toString query.ttl ++ "\t" ++
    query.id ++ "\t" ++ host ++ "\n"

/-- Python exceptions that can escape the embedded functions. -/
inductive PyErr where
  | nameError
  | valueError
deriving DecidableEq

/-- Behaviour of one mlab-ns lookup, as seen by mlabns_a_record:
transport failure, a body that is not JSON, or a parsed JSON object with
an optional ip list (rendered is the textual form used when the object
is interpolated into the missing-field log message). -/
inductive NsOutcome where
  | transportError
  | badJson (body : String)
  | parsed (ipField : Option (List String)) (rendered : String)
deriving DecidableEq

/-- mlabns_a_record of the source.  On a transport error the bare except
handler evaluates msg_fmt with the unbound names ip and e, so a NameError
escapes; json.load is outside the try, so a non-JSON body raises an
uncaught ValueError.  Only the missing or empty ip field is handled:
logged and converted to no record. -/
def mlabns_a_record (query : Query) (o : NsOutcome) : List Ev × Except PyErr (Option String) :=
  match o with
  | NsOutcome.transportError =>
      ([Ev.resolverCall], Except.error PyErr.nameError)
  | NsOutcome.badJson _ =>
      ([Ev.resolverCall], Except.error PyErr.valueError)
  | NsOutcome.parsed ipField rendered =>
      match ipField with
      | none =>
          (Ev.resolverCall ::
            log_msg (some ("mlab-ns response missing \x27ip\x27 field: " ++ rendered ++ "\n")),
            Except.ok none)
      | some [] =>
          (Ev.resolverCall ::
            log_msg (some ("mlab-ns response missing \x27ip\x27 field: " ++ rendered ++ "\n")),
            Except.ok none)
      | some (ndt_ip :: _) =>
          ([Ev.resolverCall], Except.ok (some (a_record query ndt_ip)))

/-- handle_ns_records of the source.  The /etc/donar.txt read is the
oracle argument: error means the open failed (logged, no records);
otherwise the first six lines are used, each stripped and prefixed with
the fixed subdomain literal. -/
def handle_ns_records (query : Query) (hostFile : Except Unit (List String)) : List Ev :=
  match hostFile with
  | Except.error _ =>
      log_msg (some ("Failed to open: /etc/donar.txt\n"))
  | Except.ok host_list =>
      List.flatten ((host_list.take 6).map (fun host =>
        data_msg (some (ns_record query ("utility.mlab." ++ stripChars host)))))

/-- The guard of the dispatch in main: a valid query of kind Q whose name
is one of the accepted names. -/
def isMatchingQuestion (q : Query) : Bool :=
  q.kind == "Q" &&
    (match q.name with
     | some n => NDT_HOSTLIST.contains n
     | none => false)

/-- Result of processing one query line: normal completion, or an
uncaught Python exception that aborts the process. -/
inductive StepResult where
  | ok
  | crashed (e : PyErr)
deriving DecidableEq

/-- External behaviour relevant to one query line: the outcomes of the
two independent mlab-ns calls and of the host-file read. -/
structure LineOracle where
  r1 : NsOutcome
  r2 : NsOutcome
  hostFile : Except Unit (List String)

/-- Body of the serving loop of main for one line already read (and not
empty): strip, parse, log INPUT, dispatch on name and type, then write
END and flush.  An exception escaping mlabns_a_record aborts the step
before END is written. -/
def processLine (raw : String) (o : LineOracle) : List Ev × StepResult :=
  let query_str := stripChars raw
  let parsed := query_to_dict query_str
  let pre := parsed.1 ++ log_msg (some ("INPUT: " ++ query_str ++ "\n"))
  match parsed.2 with
  | none => (pre ++ [Ev.rawOut ("END\n"), Ev.flush], StepResult.ok)
  | some query =>
      if isMatchingQuestion query then
        let soaEvs :=
          if query.qtype = some ("SOA") then data_msg (some (soa_record query)) else []
        if query.qtype = some ("ANY") ∨ query.qtype = some ("A") then
          let c1 := mlabns_a_record query o.r1
          match c1.2 with
          | Except.error e => (pre ++ soaEvs ++ c1.1, StepResult.crashed e)
          | Except.ok rec1 =>
              let c2 := mlabns_a_record query o.r2
              match c2.2 with
              | Except.error e =>
                  (pre ++ soaEvs ++ c1.1 ++ data_msg rec1 ++ c2.1, StepResult.crashed e)
              | Except.ok rec2 =>
                  let nsEvs :=
                    if query.qtype = some ("ANY") ∨ query.qtype = some ("NS") then
                      handle_ns_records query o.hostFile
                    else []
                  (pre ++ soaEvs ++ c1.1 ++ data_msg rec1 ++ c2.1 ++ data_msg rec2 ++ nsEvs ++
                    [Ev.rawOut ("END\n"), Ev.flush], StepResult.ok)
        else
          let nsEvs :=
            if query.qtype = some ("ANY") ∨ query.qtype = some ("NS") then
              handle_ns_records query o.hostFile
            else []
          (pre ++ soaEvs ++ nsEvs ++ [Ev.rawOut ("END\n"), Ev.flush], StepResult.ok)
      else
        (pre ++ [Ev.rawOut ("END\n"), Ev.flush], StepResult.ok)

/-- How a serving session ends: clean EOF exit, or an uncaught
exception. -/
inductive SessionEnd where
  | terminated
  | crashed (e : PyErr)
deriving DecidableEq

/-- Oracle used past the end of the oracle list (never reached in the
runs proved about). -/
def defaultOracle : LineOracle :=
  ⟨NsOutcome.transportError, NsOutcome.transportError, Except.error ()⟩

/-- The serving loop of main over a finite stdin prefix: list exhaustion
and an empty readline result both mean EOF, which breaks the loop. -/
def servePhase : List String → List LineOracle → List Ev × SessionEnd
  | [], _ => ([], SessionEnd.terminated)
  | raw :: rest, os =>
      if raw == "" then ([], SessionEnd.terminated)
      else
        match processLine raw (os.headD defaultOracle) with
        | (evs, StepResult.ok) =>
            let next := servePhase rest os.tail
            (evs ++ next.1, next.2)
        | (evs, StepResult.crashed e) => (evs, SessionEnd.crashed e)

/-- Handshake states of main. -/
inductive Mode where
  | awaiting
  | serving
deriving DecidableEq

/-- The handshake test of main: HELO contained in the line. -/
def containsHELO (line : String) : Bool :=
  strOccursIn ("HELO") line

/-- One iteration of the handshake loop of main: acknowledge and leave
the loop on a line containing HELO, otherwise print FAIL and stay. -/
def handshakeStep (line : String) : List Ev × Mode :=
  if containsHELO line then
    ([Ev.rawOut ("OK\tM-Lab Backend\n"), Ev.flush], Mode.serving)
  else
    ([Ev.rawOut ("FAIL\n")], Mode.awaiting)

/-- The handshake loop over a finite list of readline results; awaiting
means the loop is still waiting for more input when the list runs out. -/
def handshakeRun : List String → List Ev × Mode
  | [] => ([], Mode.awaiting)
  | line :: rest =>
      match handshakeStep line with
      | (evs, Mode.serving) => (evs, Mode.serving)
      | (evs, Mode.awaiting) =>
          let next := handshakeRun rest
          (evs ++ next.1, next.2)

/-- Is the event a DATA answer line. -/
def isDataEv : Ev → Bool
  | Ev.dataLine _ => true
  | _ => false

/-- Is the event the END marker write. -/
def isEndEv : Ev → Bool
  | Ev.rawOut s => s == "END\n"
  | _ => false

/-- Is the event an outbound naming-service call. -/
def isResolverEv : Ev → Bool
  | Ev.resolverCall => true
  | _ => false

/-- Number of DATA lines in a trace. -/
def countData (evs : List Ev) : Nat := evs.countP isDataEv

/-- Number of END lines in a trace. -/
def countEnd (evs : List Ev) : Nat := evs.countP isEndEv

/-- Number of naming-service calls in a trace. -/
def countResolver (evs : List Ev) : Nat := evs.countP isResolverEv

/-- The payloads of the DATA lines of a trace, in order. -/
def dataLines (evs : List Ev) : List String :=
  evs.filterMap (fun e => match e with | Ev.dataLine s => some s | _ => none)

/-- Host selection as the specification words it: the first six
non-empty trimmed entries of the source, in order.  Stated for
comparison with what handle_ns_records actually does. -/
def claimedHostSelection (host_list : List String) : List String :=
  (((host_list.map stripChars).filter (fun h => h != ""))).take 6

/-- Did this lookup outcome yield a record: a parsed response with a
non-empty ip list. -/
def nsSuccess : NsOutcome → Bool
  | NsOutcome.transportError => false
  | NsOutcome.badJson _ => false
  | NsOutcome.parsed none _ => false
  | NsOutcome.parsed (some []) _ => false
  | NsOutcome.parsed (some (_ :: _)) _ => true

/-- A concrete matching A question. -/
def qA0 : Query :=
  ⟨"Q", some ("donar.measurement-lab.org"), some ("IN"), some ("A"), "7", some ("1.2.3.4"), 300⟩

/-- A concrete matching ANY question. -/
def qANY0 : Query :=
  ⟨"Q", some ("donar.measurement-lab.org"), some ("IN"), some ("ANY"), "7", some ("1.2.3.4"), 300⟩

/-- A concrete matching NS question. -/
def qNS0 : Query :=
  ⟨"Q", some ("donar.measurement-lab.org"), some ("IN"), some ("NS"), "7", some ("1.2.3.4"), 300⟩

/-- A successful lookup outcome answering with the given address. -/
def okOutcome (ip : String) : NsOutcome := NsOutcome.parsed (some [ip]) ("resp")

/-- Oracle where both lookups succeed and the host file holds one line. -/
def oracleAllOk : LineOracle :=
  ⟨okOutcome ("192.0.2.1"), okOutcome ("192.0.2.2"), Except.ok ["h1\n"]⟩

/-- Oracle where both lookups hit a transport error and the host file is
unreadable. -/
def oracleFailA : LineOracle :=
  ⟨NsOutcome.transportError, NsOutcome.transportError, Except.error ()⟩

/-- A raw A question line as read from stdin. -/
def rawA0 : String := "Q\tdonar.measurement-lab.org\tIN\tA\t7\t1.2.3.4\n"

/-- A raw ANY question line as read from stdin. -/
def rawANY0 : String := "Q\tdonar.measurement-lab.org\tIN\tANY\t7\t1.2.3.4\n"

/-- A raw SOA question line as read from stdin. -/
def rawSOA0 : String := "Q\tdonar.measurement-lab.org\tIN\tSOA\t7\t1.2.3.4\n"

/-- The seven-line host file used against claim C7: its first line is
blank. -/
def hostLines0 : List String := ["\n", "a\n", "b\n", "c\n", "d\n", "e\n", "f\n"]

theorem strAppendAssoc (a b c : String) : a ++ b ++ c = a ++ (b ++ c) := by
  rcases a with ⟨la⟩
  rcases b with ⟨lb⟩
  rcases c with ⟨lc⟩
  show String.mk (la ++ lb ++ lc) = String.mk (la ++ (lb ++ lc))
  rw [List.append_assoc]

theorem query_to_dict_other (line : String)
    (h2 : (splitTab line).length ≠ 2) (h6 : (splitTab line).length ≠ 6) :
    query_to_dict line =
      (log_msg (some ("FAILED to parse query: " ++ line ++ "\n")), none) := by
  unfold query_to_dict
  rcases hl : splitTab line with _ | ⟨a, _ | ⟨b, _ | ⟨c, _ | ⟨d, _ | ⟨e, _ | ⟨f, _ | ⟨g, t⟩⟩⟩⟩⟩⟩⟩
  · rfl
  · rfl
  · rw [hl] at h2
    simp at h2
  · rfl
  · rfl
  · rfl
  · rw [hl] at h6
    simp at h6
  · rfl

theorem nsSuccess_shape (x : NsOutcome) (h : nsSuccess x = true) :
    ∃ ip rest s, x = NsOutcome.parsed (some (ip :: rest)) s := by
  cases x with
  | transportError => simp [nsSuccess] at h
  | badJson b => simp [nsSuccess] at h
  | parsed ipf s =>
      cases ipf with
      | none => simp [nsSuccess] at h
      | some l =>
          cases l with
          | nil => simp [nsSuccess] at h
          | cons ip rest => exact ⟨ip, rest, s, rfl⟩

theorem dataLines_join_data_msg (f : String → String) (l : List String) :
    dataLines (List.flatten (l.map (fun h => data_msg (some (f h))))) = l.map f := by
  induction l with
  | nil => rfl
  | cons h t ih =>
      simp only [List.map_cons, List.flatten_cons, dataLines, List.filterMap_append] at ih ⊢
      rw [ih]
      rfl

/-- C2: a 6-field line parses to a Query carrying the six fields in
order with ttl 300; a 2-field line parses to a control Query carrying
kind and id with the other fields absent and ttl 300; any other field
count yields no Query. -/
theorem parse_fields_c2 :
    (∀ (line k n c t i ip : String), splitTab line = [k, n, c, t, i, ip] →
      query_to_dict line = ([], some ⟨k, some n, some c, some t, i, some ip, 300⟩)) ∧
    (∀ (line k i : String), splitTab line = [k, i] →
      query_to_dict line = ([], some ⟨k, none, none, none, i, none, 300⟩)) ∧
    (∀ line : String, (splitTab line).length ≠ 2 → (splitTab line).length ≠ 6 →
      (query_to_dict line).2 = none) := by
  refine ⟨?_, ?_, ?_⟩
  · intro line k n c t i ip h
    unfold query_to_dict
    rw [h]
    rfl
  · intro line k i h
    unfold query_to_dict
    rw [h]
    rfl
  · intro line h2 h6
    rw [query_to_dict_other line h2 h6]

/-- C2 witness: the three cases at concrete lines. -/
theorem parse_fields_c2_witness :
    query_to_dict ("Q\tdonar.measurement-lab.org\tIN\tA\t17\t1.2.3.4") =
      ([], some ⟨"Q", some ("donar.measurement-lab.org"), some ("IN"), some ("A"), "17",
        some ("1.2.3.4"), 300⟩) ∧
    query_to_dict ("HELO\t1") = ([], some ⟨"HELO", none, none, none, "1", none, 300⟩) ∧
    (query_to_dict ("a\tb\tc")).2 = none :=
  ⟨parse_fields_c2.1 _ _ _ _ _ _ _ rfl,
   parse_fields_c2.2.1 _ _ _ rfl,
   parse_fields_c2.2.2 ("a\tb\tc") (by decide) (by decide)⟩

/-- C3: for every Query with class IN and ttl 300, soa_record is exactly
the fixed SOA line, independent of any other field. -/
theorem soa_c3 (q : Query) (hc : q.qclass = some ("IN")) (ht : q.ttl = 300) :
    soa_record q =
      "donar.measurement-lab.org.\tIN\tSOA\t300\t-1\tlocalhost. support.measurementlab.net. 2013092700 1800 3600 604800 3600\n" := by
  unfold soa_record
  rw [hc, ht]
  rfl

/-- C3 witness: the SOA line at a concrete query. -/
theorem soa_c3_witness :
    soa_record ⟨"Q", some ("donar.measurement-lab.org"), some ("IN"), some ("SOA"), "17",
        some ("1.2.3.4"), 300⟩ =
      "donar.measurement-lab.org.\tIN\tSOA\t300\t-1\tlocalhost. support.measurementlab.net. 2013092700 1800 3600 604800 3600\n" :=
  soa_c3 _ rfl rfl

/-- C4 counterexample: the claim also asserts that the A renderer
appends a trailing dot to the zone name; but a_record emits the query
name verbatim, so even when the queried name is exactly the zone the
output line starts with the zone followed by a tab, not by a dot. -/
theorem renderers_c4_cex :
    a_record qA0 ("1.2.3.4") = "donar.measurement-lab.org\tIN\tA\t300\t7\t1.2.3.4\n" ∧
    leadsWith (a_record qA0 ("1.2.3.4")).toList (("donar.measurement-lab.org.").toList) = false :=
  ⟨rfl, rfl⟩

/-- C4 amended: renderNS emits the zone name with no trailing dot
(whereas the SOA renderer appends a trailing dot to the zone name, and
the A renderer emits the query name verbatim without touching the zone),
followed by class, NS, ttl, id and the host; in particular the concrete
instance of the claim holds. -/
theorem renderers_c4_amended (q : Query) (host : String)
    (hc : q.qclass = some ("IN")) (ht : q.ttl = 300) (hi : q.id = "7") :
    ns_record q host = "donar.measurement-lab.org\tIN\tNS\t300\t7\t" ++ host ++ "\n" ∧
    ns_record q ("utility.mlab.host1.example.org") =
      "donar.measurement-lab.org\tIN\tNS\t300\t7\tutility.mlab.host1.example.org\n" ∧
    soa_record q = "donar.measurement-lab.org." ++
      "\tIN\tSOA\t300\t-1\tlocalhost. support.measurementlab.net. 2013092700 1800 3600 604800 3600\n" ∧
    (∀ nm ipaddr : String, q.name = some nm →
      a_record q ipaddr = nm ++ "\tIN\tA\t300\t7\t" ++ ipaddr ++ "\n") := by
  refine ⟨?_, ?_, ?_, ?_⟩
  · unfold ns_record
    rw [hc, ht, hi]
    rfl
  · unfold ns_record
    rw [hc, ht, hi]
    rfl
  · unfold soa_record
    rw [hc, ht]
    rfl
  · intro nm ipaddr hnm
    unfold a_record
    rw [hnm, hc, ht, hi]
    simp only [pyStr, strAppendAssoc]
    rfl

/-- C4 amended witness: the NS and A shapes at a concrete query. -/
theorem renderers_c4_amended_witness :
    ns_record qNS0 ("utility.mlab.host1.example.org") =
      "donar.measurement-lab.org\tIN\tNS\t300\t7\tutility.mlab.host1.example.org\n" ∧
    a_record qNS0 ("192.0.2.7") =
      "donar.measurement-lab.org" ++ "\tIN\tA\t300\t7\t" ++ "192.0.2.7" ++ "\n" :=
  ⟨(renderers_c4_amended qNS0 ("utility.mlab.host1.example.org") rfl rfl rfl).2.1,
   (renderers_c4_amended qNS0 ("utility.mlab.host1.example.org") rfl rfl rfl).2.2.2
     ("donar.measurement-lab.org") ("192.0.2.7") rfl⟩

/-- C1 code bug: on a transport error the bare except handler of
mlabns_a_record evaluates the unbound names ip and e and a NameError
escapes the resolver; a non-JSON response raises an uncaught ValueError
because json.load is outside the try.  Only the missing or empty ip
field is logged and converted to no record.  Consequently a matching A
question whose lookup hits a transport error crashes the session before
any END is written. -/
theorem resolver_c1_bug :
    mlabns_a_record qA0 NsOutcome.transportError =
      ([Ev.resolverCall], Except.error PyErr.nameError) ∧
    mlabns_a_record qA0 (NsOutcome.badJson ("not json")) =
      ([Ev.resolverCall], Except.error PyErr.valueError) ∧
    mlabns_a_record qA0 (NsOutcome.parsed (some []) ("resp")) =
      ([Ev.resolverCall,
        Ev.logLine ("mlab-ns response missing \x27ip\x27 field: resp\n")],
        Except.ok none) ∧
    (processLine rawA0 oracleFailA).2 = StepResult.crashed PyErr.nameError ∧
    countEnd (processLine rawA0 oracleFailA).1 = 0 ∧
    (processLine rawA0 ⟨NsOutcome.parsed (some []) ("resp"), NsOutcome.parsed (some []) ("resp"),
        Except.error ()⟩).2 = StepResult.ok ∧
    countEnd (processLine rawA0 ⟨NsOutcome.parsed (some []) ("resp"),
        NsOutcome.parsed (some []) ("resp"), Except.error ()⟩).1 = 1 :=
  ⟨rfl, rfl, rfl, rfl, rfl, rfl, rfl⟩

/-- C5 code bug: a serving session whose second line is a matching A
question with a failing lookup crashes with zero END for that line (one
END total, from the first line) and never reaches the third line; for a
malformed line the step does write exactly one END and continues. -/
theorem session_c5_bug :
    (servePhase [rawSOA0, rawA0, "garbage\n"] [oracleAllOk, oracleFailA, oracleAllOk]).2 =
      SessionEnd.crashed PyErr.nameError ∧
    countEnd (servePhase [rawSOA0, rawA0, "garbage\n"] [oracleAllOk, oracleFailA, oracleAllOk]).1
      = 1 ∧
    countEnd (processLine ("garbage\n") oracleAllOk).1 = 1 ∧
    (processLine ("garbage\n") oracleAllOk).2 = StepResult.ok :=
  ⟨rfl, rfl, rfl, rfl⟩

/-- C6 counterexample: a matching ANY question with both lookups
succeeding and a readable one-host peer file produces three DATA lines
(two A records plus one NS record), not exactly two. -/
theorem loop_c6_cex :
    countData (processLine rawANY0 oracleAllOk).1 = 3 ∧
    countEnd (processLine rawANY0 oracleAllOk).1 = 1 ∧
    countResolver (processLine rawANY0 oracleAllOk).1 = 2 :=
  ⟨rfl, rfl, rfl⟩

theorem countP_data_msg_events (p : Ev → Bool)
    (hl : ∀ s, p (Ev.logLine s) = false) (hd : ∀ s, p (Ev.dataLine s) = false)
    (g : String → String) (l : List String) :
    (List.flatten (l.map (fun h => data_msg (some (g h))))).countP p = 0 := by
  induction l with
  | nil => rfl
  | cons h t ih =>
      rw [List.map_cons, List.flatten_cons, List.countP_append, ih]
      simp [data_msg, log_msg, List.countP_cons, hl, hd]

theorem handle_ns_records_countP (q : Query) (f : Except Unit (List String)) (p : Ev → Bool)
    (hl : ∀ s, p (Ev.logLine s) = false) (hd : ∀ s, p (Ev.dataLine s) = false) :
    (handle_ns_records q f).countP p = 0 := by
  cases f with
  | error u =>
      simp [handle_ns_records, log_msg, List.countP_cons, hl]
  | ok l =>
      exact countP_data_msg_events p hl hd _ _

/-- C6 amended: for a classified matching question of type A or ANY
whose two lookups both succeed, the loop calls the resolver exactly
twice and writes exactly one END; each invocation resolves to one A
record, and the trace is pinned down in both cases: a type A question
emits exactly the two A DATA lines and then END plus flush, and a type
ANY question emits the same two A DATA lines followed by the NS events
of the peer-host source and then END plus flush, so its DATA payloads
are the two A records followed by the NS records. -/
theorem loop_c6_amended (raw : String) (o : LineOracle) (q : Query)
    (hq : query_to_dict (stripChars raw) = ([], some q))
    (hm : isMatchingQuestion q = true)
    (ht : q.qtype = some ("ANY") ∨ q.qtype = some ("A"))
    (h1 : nsSuccess o.r1 = true) (h2 : nsSuccess o.r2 = true) :
    countResolver (processLine raw o).1 = 2 ∧
    countEnd (processLine raw o).1 = 1 ∧
    (processLine raw o).2 = StepResult.ok ∧
    (∃ a1 a2,
      (mlabns_a_record q o.r1).2 = Except.ok (some a1) ∧
      (mlabns_a_record q o.r2).2 = Except.ok (some a2) ∧
      (q.qtype = some ("A") →
        countData (processLine raw o).1 = 2 ∧
        dataLines (processLine raw o).1 = [a1, a2] ∧
        (processLine raw o).1 =
          [Ev.logLine (replTabSpace ("INPUT: " ++ stripChars raw ++ "\n")),
           Ev.resolverCall, Ev.logLine (replTabSpace ("REPLY: " ++ a1)), Ev.dataLine a1,
           Ev.resolverCall, Ev.logLine (replTabSpace ("REPLY: " ++ a2)), Ev.dataLine a2,
           Ev.rawOut ("END\n"), Ev.flush]) ∧
      (q.qtype = some ("ANY") →
        dataLines (processLine raw o).1 =
          a1 :: a2 :: dataLines (handle_ns_records q o.hostFile) ∧
        (processLine raw o).1 =
          [Ev.logLine (replTabSpace ("INPUT: " ++ stripChars raw ++ "\n")),
           Ev.resolverCall, Ev.logLine (replTabSpace ("REPLY: " ++ a1)), Ev.dataLine a1,
           Ev.resolverCall, Ev.logLine (replTabSpace ("REPLY: " ++ a2)), Ev.dataLine a2] ++
          handle_ns_records q o.hostFile ++ [Ev.rawOut ("END\n"), Ev.flush])) := by
  obtain ⟨ip1, rest1, s1, ho1⟩ := nsSuccess_shape o.r1 h1
  obtain ⟨ip2, rest2, s2, ho2⟩ := nsSuccess_shape o.r2 h2
  rcases ht with hty | hta
  · have hsoa : ¬ (q.qtype = some ("SOA")) := by rw [hty]; decide
    have ha : q.qtype = some ("ANY") ∨ q.qtype = some ("A") := Or.inl hty
    have hns : q.qtype = some ("ANY") ∨ q.qtype = some ("NS") := Or.inl hty
    have hp : processLine raw o =
        ([Ev.logLine (replTabSpace ("INPUT: " ++ stripChars raw ++ "\n")),
          Ev.resolverCall, Ev.logLine (replTabSpace ("REPLY: " ++ a_record q ip1)),
          Ev.dataLine (a_record q ip1),
          Ev.resolverCall, Ev.logLine (replTabSpace ("REPLY: " ++ a_record q ip2)),
          Ev.dataLine (a_record q ip2)] ++
          handle_ns_records q o.hostFile ++ [Ev.rawOut ("END\n"), Ev.flush],
          StepResult.ok) := by
      simp [processLine, hq, ho1, ho2, hm, hsoa, ha, hns, mlabns_a_record, data_msg, log_msg]
    have hres : (handle_ns_records q o.hostFile).countP isResolverEv = 0 :=
      handle_ns_records_countP q o.hostFile isResolverEv (fun s => rfl) (fun s => rfl)
    have hend : (handle_ns_records q o.hostFile).countP isEndEv = 0 :=
      handle_ns_records_countP q o.hostFile isEndEv (fun s => rfl) (fun s => rfl)
    refine ⟨?_, ?_, ?_, ⟨a_record q ip1, a_record q ip2, ?_, ?_, ?_, ?_⟩⟩
    · rw [hp]
      simp only [countResolver, List.countP_append, hres]
      rfl
    · rw [hp]
      simp only [countEnd, List.countP_append, hend]
      rfl
    · rw [hp]
    · rw [ho1]
      rfl
    · rw [ho2]
      rfl
    · intro hcon
      rw [hty] at hcon
      exact absurd hcon (by decide)
    · intro hy
      constructor
      · rw [hp]
        simp [dataLines, List.filterMap_append]
      · rw [hp]
  · have hsoa : ¬ (q.qtype = some ("SOA")) := by rw [hta]; decide
    have ha : q.qtype = some ("ANY") ∨ q.qtype = some ("A") := Or.inr hta
    have hns : ¬ (q.qtype = some ("ANY") ∨ q.qtype = some ("NS")) := by rw [hta]; decide
    have hp : processLine raw o =
        ([Ev.logLine (replTabSpace ("INPUT: " ++ stripChars raw ++ "\n")),
          Ev.resolverCall, Ev.logLine (replTabSpace ("REPLY: " ++ a_record q ip1)),
          Ev.dataLine (a_record q ip1),
          Ev.resolverCall, Ev.logLine (replTabSpace ("REPLY: " ++ a_record q ip2)),
          Ev.dataLine (a_record q ip2),
          Ev.rawOut ("END\n"), Ev.flush], StepResult.ok) := by
      simp [processLine, hq, ho1, ho2, hm, hsoa, ha, hns, mlabns_a_record, data_msg, log_msg]
    refine ⟨?_, ?_, ?_, ⟨a_record q ip1, a_record q ip2, ?_, ?_, ?_, ?_⟩⟩
    · rw [hp]
      rfl
    · rw [hp]
      rfl
    · rw [hp]
    · rw [ho1]
      rfl
    · rw [ho2]
      rfl
    · intro ha2
      refine ⟨?_, ?_, ?_⟩
      · rw [hp]
        rfl
      · rw [hp]
        rfl
      · rw [hp]
    · intro hcon
      rw [hta] at hcon
      exact absurd hcon (by decide)

/-- C6 amended witness: the resolver, END and completion facts from the
theorem at a concrete matching A question and at a concrete matching ANY
question, both with succeeding lookups. -/
theorem loop_c6_amended_witness :
    countResolver (processLine rawA0 oracleAllOk).1 = 2 ∧
    countEnd (processLine rawA0 oracleAllOk).1 = 1 ∧
    (processLine rawA0 oracleAllOk).2 = StepResult.ok ∧
    countResolver (processLine rawANY0 oracleAllOk).1 = 2 ∧
    countEnd (processLine rawANY0 oracleAllOk).1 = 1 ∧
    (processLine rawANY0 oracleAllOk).2 = StepResult.ok :=
  ⟨(loop_c6_amended rawA0 oracleAllOk qA0 rfl rfl (Or.inr rfl) rfl rfl).1,
   (loop_c6_amended rawA0 oracleAllOk qA0 rfl rfl (Or.inr rfl) rfl rfl).2.1,
   (loop_c6_amended rawA0 oracleAllOk qA0 rfl rfl (Or.inr rfl) rfl rfl).2.2.1,
   (loop_c6_amended rawANY0 oracleAllOk qANY0 rfl rfl (Or.inl rfl) rfl rfl).1,
   (loop_c6_amended rawANY0 oracleAllOk qANY0 rfl rfl (Or.inl rfl) rfl rfl).2.1,
   (loop_c6_amended rawANY0 oracleAllOk qANY0 rfl rfl (Or.inl rfl) rfl rfl).2.2.1⟩

/-- C7 counterexample: on a source whose first line is blank,
handle_ns_records renders the first six lines, blank included (host
utility.mlab. for the blank line) and drops the seventh entry f, whereas
the claim selects the first six non-empty trimmed entries a to f. -/
theorem ns_hosts_c7_cex :
    dataLines (handle_ns_records qNS0 (Except.ok hostLines0)) =
      [ns_record qNS0 ("utility.mlab."), ns_record qNS0 ("utility.mlab.a"),
       ns_record qNS0 ("utility.mlab.b"), ns_record qNS0 ("utility.mlab.c"),
       ns_record qNS0 ("utility.mlab.d"), ns_record qNS0 ("utility.mlab.e")] ∧
    dataLines (handle_ns_records qNS0 (Except.ok hostLines0)) ≠
      (claimedHostSelection hostLines0).map (fun h => ns_record qNS0 ("utility.mlab." ++ h)) :=
  ⟨rfl, by decide⟩

/-- C7 amended: handle_ns_records uses at most the first six lines of
the source in order, blank or not; each used line is trimmed of
surrounding whitespace and prefixed with utility.mlab. before being
rendered as an NS record; a source with more than six lines yields NS
replies for exactly the first six in order. -/
theorem ns_hosts_c7_amended (q : Query) (host_list : List String) :
    dataLines (handle_ns_records q (Except.ok host_list)) =
      (host_list.take 6).map (fun host => ns_record q ("utility.mlab." ++ stripChars host)) := by
  unfold handle_ns_records
  exact dataLines_join_data_msg (fun host => ns_record q ("utility.mlab." ++ stripChars host))
    (host_list.take 6)

/-- C8 counterexample: for the 3-field line a tab b tab c the parse
failure is logged by query_to_dict itself, and the written log bytes
hold the line with tabs replaced by spaces: the original line does not
occur verbatim anywhere in them. -/
theorem parse_c8_cex :
    (query_to_dict ("a\tb\tc")).1 = [Ev.logLine ("FAILED to parse query: a b c\n")] ∧
    strOccursIn ("a\tb\tc") (Ev.bytes (Ev.logLine ("FAILED to parse query: a b c\n"))) = false ∧
    (query_to_dict ("a\tb\tc")).2 = none :=
  ⟨rfl, rfl, rfl⟩

/-- C8 amended: for every line whose tab-separated field count is
neither 2 nor 6, query_to_dict yields no Query and itself logs a FAILED
message holding the line with its tab characters replaced by spaces
(verbatim only when the line holds no tab). -/
theorem parse_c8_amended (line : String)
    (h2 : (splitTab line).length ≠ 2) (h6 : (splitTab line).length ≠ 6) :
    query_to_dict line =
      ([Ev.logLine (replTabSpace ("FAILED to parse query: " ++ line ++ "\n"))], none) :=
  query_to_dict_other line h2 h6

/-- C8 amended witness: the logged message at the concrete 3-field
line. -/
theorem parse_c8_amended_witness :
    query_to_dict ("a\tb\tc") =
      ([Ev.logLine ("FAILED to parse query: a b c\n")], none) :=
  parse_c8_amended ("a\tb\tc") (by decide) (by decide)

/-- C9: a handshake line without HELO yields the FAIL indicator and the
loop stays in the awaiting state, reading on; a line containing HELO
yields the OK acknowledgement plus a flush and moves to serving. -/
theorem handshake_c9 :
    (∀ line : String, containsHELO line = false →
      handshakeStep line = ([Ev.rawOut ("FAIL\n")], Mode.awaiting)) ∧
    (∀ line : String, containsHELO line = true →
      handshakeStep line = ([Ev.rawOut ("OK\tM-Lab Backend\n"), Ev.flush], Mode.serving)) ∧
    (∀ (line : String) (rest : List String), containsHELO line = false →
      handshakeRun (line :: rest) =
        (Ev.rawOut ("FAIL\n") :: (handshakeRun rest).1, (handshakeRun rest).2)) ∧
    (∀ (line : String) (rest : List String), containsHELO line = true →
      handshakeRun (line :: rest) =
        ([Ev.rawOut ("OK\tM-Lab Backend\n"), Ev.flush], Mode.serving)) := by
  have hstep0 : ∀ line : String, containsHELO line = false →
      handshakeStep line = ([Ev.rawOut ("FAIL\n")], Mode.awaiting) := by
    intro line h
    unfold handshakeStep
    rw [h]
    rfl
  have hstep1 : ∀ line : String, containsHELO line = true →
      handshakeStep line = ([Ev.rawOut ("OK\tM-Lab Backend\n"), Ev.flush], Mode.serving) := by
    intro line h
    unfold handshakeStep
    rw [h]
    rfl
  refine ⟨hstep0, hstep1, ?_, ?_⟩
  · intro line rest h
    simp only [handshakeRun]
    rw [hstep0 line h]
    rfl
  · intro line rest h
    simp only [handshakeRun]
    rw [hstep1 line h]

/-- C9 witness: both handshake branches at concrete lines. -/
theorem handshake_c9_witness :
    handshakeStep ("bogus\n") = ([Ev.rawOut ("FAIL\n")], Mode.awaiting) ∧
    handshakeStep ("HELO\t1\n") = ([Ev.rawOut ("OK\tM-Lab Backend\n"), Ev.flush], Mode.serving) ∧
    handshakeRun ["bogus\n"] = ([Ev.rawOut ("FAIL\n")], Mode.awaiting) :=
  ⟨handshake_c9.1 ("bogus\n") rfl,
   handshake_c9.2.1 ("HELO\t1\n") rfl,
   handshake_c9.2.2.1 ("bogus\n") [] rfl⟩

/-- C10: end of input terminates the loop only in the serving state (an
empty readline result breaks the serving loop cleanly), while in the
handshake state an empty readline result lacks HELO, so after EOF every
further iteration emits FAIL and the loop stays awaiting forever. -/
theorem eof_c10 :
    (∀ (rest : List String) (os : List LineOracle),
      servePhase (("") :: rest) os = ([], SessionEnd.terminated)) ∧
    (∀ os : List LineOracle, servePhase [] os = ([], SessionEnd.terminated)) ∧
    containsHELO ("") = false ∧
    (∀ n : Nat, handshakeRun (List.replicate n ("")) =
      (List.replicate n (Ev.rawOut ("FAIL\n")), Mode.awaiting)) := by
  refine ⟨fun rest os => rfl, fun os => rfl, rfl, ?_⟩
  intro n
  induction n with
  | zero => rfl
  | succ k ih =>
      rw [List.replicate_succ]
      show ([Ev.rawOut ("FAIL\n")] ++ (handshakeRun (List.replicate k (""))).1,
          (handshakeRun (List.replicate k (""))).2) =
        (List.replicate (k + 1) (Ev.rawOut ("FAIL\n")), Mode.awaiting)
      rw [ih]
      rw [List.replicate_succ]
      rfl

end Mlabns
